import Mathlib

/-!
Verification of the serm-monitor reputation engine (`src/backend/batch-parse.js`)
against its natural-language specification.  The JavaScript is shallowly
embedded: numbers become `ℚ` (all constants in the program are small dyadic
values), strings become `String` or `List Char`, the in-memory job registry
becomes an association list, and the asynchronous environment (HTTP client,
file store) becomes explicit parameters.
-/

namespace SermMonitor

/-- Sentiment polarity returned by the classifiers; the JS code uses the
strings "positive" / "negative" / "neutral". -/
inductive Sentiment where
  | positive
  | negative
  | neutral
deriving DecidableEq, Repr

/-- JavaScript `Math.round`: rounds half toward positive infinity. -/
def jsRound (q : ℚ) : ℤ := ⌊q + 1 / 2⌋

/-- Digits of `Number.prototype.toFixed(1)` for a nonnegative rational:
the integer `n` with `n / 10` closest to the argument, ties to the larger. -/
def toFixed1Core (q : ℚ) : String :=
  let n : ℤ := ⌊q * 10 + 1 / 2⌋
  let m : ℕ := n.toNat
  toString (m / 10) ++ "." ++ toString (m % 10)

/-- JavaScript `x.toFixed(1)`: for a negative argument ECMA-262 emits the
sign and rounds the absolute value. -/
def toFixed1 (q : ℚ) : String :=
  if q < 0 then "-" ++ toFixed1Core (-q) else toFixed1Core q

/-- Character list of a string literal (tokens are modelled as `List Char`). -/
def str (s : String) : List Char := s.data

/-- `SENTIMENT_WORDS.positive` from the source: stem ↦ weight, in the
insertion order of the object literal (`Object.entries` order). -/
def positiveWords : List (List Char × ℚ) :=
  [(str "выдающийся", 3), (str "великолепный", 3), (str "блестящий", 3), (str "гениальный", 3),
   (str "легендарный", 3), (str "феноменальный", 3), (str "триумф", 3), (str "прорыв", 3),
   (str "успех", 2), (str "успешн", 2), (str "победа", 2), (str "победител", 2), (str "талант", 2),
   (str "достижение", 2), (str "награда", 2), (str "награжден", 2), (str "признание", 2),
   (str "звезда", 2), (str "профессионал", 2), (str "эксперт", 2), (str "мастер", 2),
   (str "лидер", 2), (str "рекорд", 2), (str "лауреат", 2), (str "чемпион", 2),
   (str "хороший", 1), (str "хорош", 1), (str "отличн", 1), (str "прекрасн", 1), (str "замечательн", 1),
   (str "популярн", 1), (str "известн", 1), (str "любим", 1), (str "уважаем", 1), (str "почетн", 1),
   (str "красив", 1), (str "интересн", 1), (str "полезн", 1), (str "качествен", 1),
   (str "рекомендуем", 1), (str "рекомендую", 1), (str "советую", 1), (str "нравится", 1),
   (str "радость", 1), (str "счастье", 1), (str "счастлив", 1), (str "позитив", 1),
   (str "вдохновля", 1), (str "восхища", 1), (str "впечатля", 1)]

/-- `SENTIMENT_WORDS.negative` from the source, in object-literal order. -/
def negativeWords : List (List Char × ℚ) :=
  [(str "мошенник", 3), (str "мошенничество", 3), (str "афера", 3), (str "аферист", 3),
   (str "преступник", 3), (str "преступлен", 3), (str "арест", 3), (str "арестован", 3),
   (str "тюрьма", 3), (str "заключен", 3), (str "убийство", 3), (str "убийца", 3),
   (str "насилие", 3), (str "насильник", 3), (str "педофил", 3), (str "изнасилов", 3),
   (str "наркотик", 3), (str "наркоман", 3), (str "коррупц", 3), (str "взятк", 3),
   (str "разоблач", 3), (str "компромат", 3),
   (str "скандал", 2), (str "провал", 2), (str "банкрот", 2), (str "банкротств", 2),
   (str "обман", 2), (str "обманул", 2), (str "ложь", 2), (str "лжец", 2), (str "врет", 2),
   (str "воровств", 2), (str "украл", 2), (str "кража", 2), (str "хищение", 2),
   (str "обвинен", 2), (str "обвиня", 2), (str "подозрева", 2), (str "подозрение", 2),
   (str "суд", 2), (str "судим", 2), (str "штраф", 2), (str "иск", 2),
   (str "увольн", 2), (str "уволен", 2), (str "отставк", 2),
   (str "трагедия", 2), (str "трагическ", 2), (str "гибель", 2), (str "смерть", 2),
   (str "жертв", 2), (str "катастроф", 2), (str "авария", 2),
   (str "критик", 1), (str "критику", 1), (str "негатив", 1), (str "проблем", 1),
   (str "конфликт", 1), (str "спор", 1), (str "ссора", 1), (str "скандальн", 1),
   (str "жалоб", 1), (str "претензи", 1), (str "недовольн", 1), (str "возмущен", 1),
   (str "плох", 1), (str "ужасн", 1), (str "кошмар", 1), (str "отвратительн", 1),
   (str "разочаров", 1), (str "неудач", 1), (str "провальн", 1), (str "ошибк", 1),
   (str "кризис", 1), (str "долг", 1), (str "задолжен", 1),
   (str "развод", 1), (str "измен", 1), (str "неверн", 1),
   (str "алкогол", 1), (str "пьян", 1), (str "запой", 1),
   (str "болезн", 1), (str "болен", 1), (str "диагноз", 1)]

/-- `NEGATION_WORDS` from the source. -/
def negationWords : List (List Char) :=
  [str "не", str "нет", str "без", str "ни", str "никак", str "никогда",
   str "нигде", str "никто", str "ничто", str "отсутств"]

/-- `DOMAIN_BIAS` from the source: per-domain additive constant. -/
def domainBiasTable : List (String × ℚ) :=
  [("kompromatwiki.org", -2), ("compromat.ru", -2), ("rucriminal.info", -2),
   ("kompromat.ru", -2), ("anticompromat.org", -1), ("scandal.ru", -1),
   ("wikipedia.org", 0), ("ru.wikipedia.org", 0),
   ("forbes.ru", 1 / 2), ("rbc.ru", 0), ("vedomosti.ru", 0), ("kommersant.ru", 0),
   ("vk.com", 0), ("instagram.com", 0), ("facebook.com", 0), ("youtube.com", 0),
   ("tiktok.com", 0), ("dzen.ru", 0),
   ("otzovik.com", 0), ("irecommend.ru", 0), ("flamp.ru", 0)]

/-- `DOMAIN_BIAS[domain] || 0`. -/
def domainBiasOf (domain : String) : ℚ :=
  ((domainBiasTable.find? (fun p => p.1 == domain)).map Prod.snd).getD 0

/-- `word.startsWith(keyword)` on character lists: the first argument is a
prefix of the second. -/
def startsWithL : List Char → List Char → Bool
  | [], _ => true
  | _ :: _, [] => false
  | a :: as, b :: bs => a == b && startsWithL as bs

/-- First dictionary entry whose stem is a prefix of the word ("first match
per polarity wins"); `word === keyword` in the source is subsumed by
`startsWith`. -/
def findMatch (dict : List (List Char × ℚ)) (w : List Char) : Option ℚ :=
  (dict.find? (fun p => startsWithL p.1 w)).map Prod.snd

/-- Lowercasing as `String.prototype.toLowerCase` acts on the characters the
tokenizer can keep: ASCII letters and Cyrillic а-я/ё. -/
def toLowerRu (c : Char) : Char :=
  if 'A' ≤ c ∧ c ≤ 'Z' then Char.ofNat (c.toNat + 32)
  else if 'А' ≤ c ∧ c ≤ 'Я' then Char.ofNat (c.toNat + 32)
  else if c = 'Ё' then 'ё'
  else c

/-- Characters the splitting regex `/[^а-яёa-z0-9]+/i` does NOT treat as a
separator (the text is already lowercased). -/
def isWordChar (c : Char) : Bool :=
  ('a' ≤ c && c ≤ 'z') || ('а' ≤ c && c ≤ 'я') || c == 'ё' || ('0' ≤ c && c ≤ '9')

/-- Split into maximal runs of word characters, dropping empty pieces
(`split(...).filter(w => w.length > 0)`). -/
def splitTokens : List Char → List Char → List (List Char)
  | [], acc => if acc.isEmpty then [] else [acc.reverse]
  | c :: cs, acc =>
    if isWordChar c then splitTokens cs (c :: acc)
    else if acc.isEmpty then splitTokens cs []
    else acc.reverse :: splitTokens cs []

/-- Tokenization in `analyzeSentiment`: build `` ` ${title} ${snippet} ` ``,
lowercase, truncate to 1000 characters, split, keep the first 200 tokens. -/
def tokenize (title snippet : String) : List (List Char) :=
  let text := ' ' :: title.data ++ ' ' :: snippet.data ++ [' ']
  (splitTokens ((text.map toLowerRu).take 1000) []).take 200

/-- Contribution of one word to `(positiveScore, negativeScore)` from the
positive dictionary, given whether a negation word precedes it. -/
def posPart (neg : Bool) (w : List Char) : ℚ × ℚ :=
  match findMatch positiveWords w with
  | some wt => if neg then (0, wt * (1 / 2)) else (wt, 0)
  | none => (0, 0)

/-- Contribution of one word from the negative dictionary. -/
def negPart (neg : Bool) (w : List Char) : ℚ × ℚ :=
  match findMatch negativeWords w with
  | some wt => if neg then (wt * (1 / 2), 0) else (0, wt)
  | none => (0, 0)

/-- Total contribution of one word to the running scores (both dictionaries
are consulted independently, exactly as the two `for` loops in the source). -/
def contrib (neg : Bool) (w : List Char) : ℚ × ℚ :=
  ((posPart neg w).1 + (negPart neg w).1, (posPart neg w).2 + (negPart neg w).2)

/-- `textWords.slice(Math.max(0, i - 3), i)`: the up-to-3 tokens preceding
index `i` (ℕ subtraction is truncated, matching `Math.max(0, i-3)`). -/
def window (ts : List (List Char)) (i : ℕ) : List (List Char) :=
  (ts.take i).drop (i - 3)

/-- `hasNegation` at index `i`: some token of the window is a negation word. -/
def negatedAt (ts : List (List Char)) (i : ℕ) : Bool :=
  (window ts i).any (fun w => negationWords.contains w)

/-- Score contribution of token `i` of the token list. -/
def scoreStep (ts : List (List Char)) (i : ℕ) : ℚ × ℚ :=
  contrib (negatedAt ts i) (ts.getD i [])

/-- `positiveScore` accumulated by the main loop of `analyzeSentiment`. -/
def positiveScore (ts : List (List Char)) : ℚ :=
  ∑ i ∈ Finset.range ts.length, (scoreStep ts i).1

/-- `negativeScore` accumulated by the main loop of `analyzeSentiment`. -/
def negativeScore (ts : List (List Char)) : ℚ :=
  ∑ i ∈ Finset.range ts.length, (scoreStep ts i).2

/-- Positive score after the domain-bias adjustment. -/
def adjustedPositive (title snippet domain : String) : ℚ :=
  let base := positiveScore (tokenize title snippet)
  if domainBiasOf domain > 0 then base + domainBiasOf domain else base

/-- Negative score after the domain-bias adjustment. -/
def adjustedNegative (title snippet domain : String) : ℚ :=
  let base := negativeScore (tokenize title snippet)
  if domainBiasOf domain < 0 then base + |domainBiasOf domain| else base

/-- `analyzeSentiment(title, snippet, domain)` from the source. -/
def analyzeSentiment (title snippet : String) (domain : String := "") : Sentiment :=
  let pos := adjustedPositive title snippet domain
  let neg := adjustedNegative title snippet domain
  let totalScore := pos + neg
  if totalScore = 0 then .neutral
  else
    let normalizedDiff := (pos - neg) / totalScore
    if normalizedDiff > 3 / 10 then .positive
    else if normalizedDiff < -(3 / 10) then .negative
    else .neutral

/-- Stable insertion (before the first element of smaller-or-equal weight)
used to model the stable JS `sort((a, b) => b.weight - a.weight)`. -/
def insertTok (x : List Char × ℚ) : List (List Char × ℚ) → List (List Char × ℚ)
  | [] => [x]
  | y :: ys => if y.2 ≤ x.2 then x :: y :: ys else y :: insertTok x ys

/-- Stable sort by weight, descending. -/
def sortByWeight (l : List (List Char × ℚ)) : List (List Char × ℚ) :=
  l.foldr insertTok []

/-- Tokenization of `generateSentimentExplanation`: same as `tokenize` but
without the 1000-character truncation (the source omits `substring` there). -/
def explTokenize (title snippet : String) : List (List Char) :=
  let text := ' ' :: title.data ++ ' ' :: snippet.data ++ [' ']
  (splitTokens (text.map toLowerRu) []).take 200

/-- Words of the token list matched by a dictionary, paired with the matched
stem's weight (the collection pass of `generateSentimentExplanation`). -/
def foundWords (dict : List (List Char × ℚ)) (ts : List (List Char)) :
    List (List Char × ℚ) :=
  ts.filterMap (fun w => (findMatch dict w).map (fun wt => (w, wt)))

/-- Render up to the first three found words as `"w1", "w2", "w3"`. -/
def topKeywords (l : List (List Char × ℚ)) : String :=
  String.intercalate ", " ((l.take 3).map (fun p => "\"" ++ String.mk p.1 ++ "\""))

/-- `generateSentimentExplanation(title, snippet, domain, sentiment)` from the
source. -/
def generateSentimentExplanation (title snippet domain : String)
    (sentiment : Sentiment) : String :=
  let ts := explTokenize title snippet
  let foundPositive := sortByWeight (foundWords positiveWords ts)
  let foundNegative := sortByWeight (foundWords negativeWords ts)
  match sentiment with
  | .positive =>
    if foundPositive.length > 0 then "Позитивные маркеры: " ++ topKeywords foundPositive
    else "Общий позитивный тон публикации"
  | .negative =>
    let comment :=
      if foundNegative.length > 0 then "Негативные маркеры: " ++ topKeywords foundNegative
      else "Общий негативный тон публикации"
    if domainBiasOf domain < 0 then comment ++ " | Источник: компроматный ресурс" else comment
  | .neutral =>
    if foundPositive.length = 0 ∧ foundNegative.length = 0 then
      "Нейтральная информационная публикация"
    else "Смешанная тональность, баланс позитива и негатива"

/-- Result record of the classifier adapter
(`{sentiment, explanation, confidence}`). -/
structure SentimentResult where
  sentiment : Sentiment
  explanation : String
  confidence : ℚ
deriving DecidableEq, Repr

/-- Environment of one `analyzeSentimentWithClaude` call: the client may be
absent (no API key), the call may throw (network error, timeout, or an
unparsable response body — `JSON.parse` throws inside the same `try`), or it
may yield a parsed JSON object whose fields may each be missing/falsy
(modelled as `Option`, matching the `||` defaults). -/
inductive ClaudeEnv where
  | unconfigured
  | failure (msg : String)
  | success (sentiment : Option Sentiment) (confidence : Option ℚ) (explanation : Option String)

/-- `analyzeSentimentWithClaude(title, snippet, url)` from the source, with
the I/O environment made explicit. -/
def analyzeSentimentWithClaude (env : ClaudeEnv) (title snippet : String)
    (_url : String := "") : SentimentResult :=
  match env with
  | .unconfigured =>
    { sentiment := analyzeSentiment title snippet
      explanation := "Локальный анализ (Claude API не настроен)"
      confidence := 1 / 2 }
  | .failure msg =>
    { sentiment := analyzeSentiment title snippet
      explanation := "Ошибка Claude API: " ++ msg
      confidence := 3 / 10 }
  | .success s c e =>
    { sentiment := s.getD .neutral
      explanation := e.getD ""
      confidence := c.getD (7 / 10) }

/-- `CTR_COEFFICIENTS` positions 1–50 from the source; positions 51–100 are
filled with `0.03` by the spread, which coincides with the `|| 0.03` default
applied to every unmapped position. -/
def ctrTable : List (ℕ × ℚ) :=
  [(1, 30), (2, 20), (3, 14), (4, 10), (5, 7),
   (6, 6), (7, 5), (8, 4), (9, 5/2), (10, 3/2),
   (11, 21/10), (12, 19/10), (13, 16/10), (14, 14/10), (15, 13/10),
   (16, 12/10), (17, 1), (18, 9/10), (19, 8/10), (20, 7/10),
   (21, 6/10), (22, 55/100), (23, 5/10), (24, 45/100), (25, 4/10),
   (26, 38/100), (27, 36/100), (28, 34/100), (29, 32/100), (30, 3/10),
   (31, 28/100), (32, 26/100), (33, 24/100), (34, 22/100), (35, 2/10),
   (36, 19/100), (37, 18/100), (38, 17/100), (39, 16/100), (40, 15/100),
   (41, 14/100), (42, 13/100), (43, 12/100), (44, 11/100), (45, 1/10),
   (46, 9/100), (47, 8/100), (48, 7/100), (49, 6/100), (50, 5/100)]

/-- `CTR_COEFFICIENTS[pos] || 0.03`. -/
def ctrCoefficient (pos : ℕ) : ℚ :=
  ((ctrTable.find? (fun p => p.1 == pos)).map Prod.snd).getD (3 / 100)

/-- Fields of a parsed search result used by the aggregator (the full JS
object also carries url/title/snippet/domain/type, which `calculateMetrics`
never reads). -/
structure SearchResult where
  position : ℕ
  sentiment : Sentiment
  ctr : ℚ
deriving DecidableEq, Repr

/-- Accumulator of the `top10.forEach` loop in `calculateMetrics`. -/
structure MAcc where
  positiveWeight : ℚ
  negativeWeight : ℚ
  neutralWeight : ℚ
  totalCTR : ℚ
  score : ℚ
deriving Repr

/-- One iteration of the `top10.forEach` loop. -/
def mStep (acc : MAcc) (r : SearchResult) : MAcc :=
  let acc := { acc with totalCTR := acc.totalCTR + r.ctr }
  match r.sentiment with
  | .positive =>
    { acc with positiveWeight := acc.positiveWeight + r.ctr, score := acc.score + r.ctr * 1 }
  | .negative =>
    { acc with negativeWeight := acc.negativeWeight + r.ctr, score := acc.score - r.ctr * 1 }
  | .neutral =>
    { acc with neutralWeight := acc.neutralWeight + r.ctr, score := acc.score + r.ctr * (3 / 4) }

/-- Output record of `calculateMetrics`. -/
structure Metrics where
  totalResults : ℕ
  positiveCount : ℕ
  negativeCount : ℕ
  neutralCount : ℕ
  positivePercent : String
  negativePercent : String
  neutralPercent : String
  rating : String
  balance : String
  score : String
  riskLevel : String
deriving DecidableEq, Repr

/-- `calculateMetrics(results)` from the source.  `negativeWeight/totalCTR`
on the empty top-10 is `0/0`: IEEE `NaN` in JS, `0` in ℚ — both make the two
risk-threshold comparisons false, so the `riskLevel` branch agrees. -/
def calculateMetrics (results : List SearchResult) : Metrics :=
  let acc := (results.take 10).foldl mStep ⟨0, 0, 0, 0, 0⟩
  let rating := (acc.score + 100) / 2
  { totalResults := results.length
    positiveCount := (results.filter (fun r => r.sentiment == .positive)).length
    negativeCount := (results.filter (fun r => r.sentiment == .negative)).length
    neutralCount := (results.filter (fun r => r.sentiment == .neutral)).length
    positivePercent := if acc.totalCTR > 0 then toFixed1 (acc.positiveWeight / acc.totalCTR * 100) else "0.0"
    negativePercent := if acc.totalCTR > 0 then toFixed1 (acc.negativeWeight / acc.totalCTR * 100) else "0.0"
    neutralPercent := if acc.totalCTR > 0 then toFixed1 (acc.neutralWeight / acc.totalCTR * 100) else "0.0"
    rating := toFixed1 rating
    balance := toFixed1 rating
    score := toFixed1 acc.score
    riskLevel :=
      if acc.negativeWeight / acc.totalCTR > 1 / 2 then "high"
      else if acc.negativeWeight / acc.totalCTR > 3 / 10 then "medium"
      else "low" }

/-- The `updateProgress` closure of the background-parsing handler:
`engineWeight = 1/engineCount`, `baseProgress = engineIndex*engineWeight`,
`stepProgress = (subStep + subProgress)*engineWeight/2`,
`progress = Math.round((baseProgress + stepProgress) * 100)`. -/
def updateProgress (engineCount engineIndex subStep : ℕ) (subProgress : ℚ) : ℤ :=
  let engineWeight : ℚ := 1 / engineCount
  let baseProgress : ℚ := engineIndex * engineWeight
  let stepProgress : ℚ := (subStep + subProgress) * engineWeight / 2
  jsRound ((baseProgress + stepProgress) * 100)

/-- The progress formula exactly as the specification writes it:
`round(100 × (engineIndex/engineCount + (subStep + subProgress)/(2 × engineCount)))`. -/
def specProgressFormula (engineCount engineIndex subStep : ℕ) (subProgress : ℚ) : ℤ :=
  jsRound (100 * ((engineIndex : ℚ) / engineCount + (subStep + subProgress) / (2 * engineCount)))

/-- Status of a background task (`task.status` strings in the source). -/
inductive TaskStatus where
  | running
  | completed
  | error
deriving DecidableEq, Repr

/-- The slice of a task record that the start-request scan reads and that the
claims constrain. -/
structure Task where
  projectId : String
  entityId : String
  status : TaskStatus
  progress : ℤ
deriving DecidableEq, Repr

/-- The `activeParsings` `Map`, as an insertion-ordered association list
(`Map` iteration order is insertion order; `set` of a fresh key appends). -/
abbrev Registry := List (String × Task)

/-- The start of the `parse-background` handler: scan `activeParsings` for a
running task of the same entity; if found, answer with that task's id and
`alreadyRunning`; otherwise register a fresh task under a fresh id.  The
fresh id and task record are passed in (uuid and clock made explicit). -/
def startParseBackground (reg : Registry) (entityId : String)
    (newId : String) (newTask : Task) : (String × Bool) × Registry :=
  match reg.find? (fun p => p.2.entityId == entityId && p.2.status == TaskStatus.running) with
  | some p => ((p.1, true), reg)
  | none => ((newId, false), reg ++ [(newId, newTask)])

/-- Per-engine outcome assembled into `parsingResults.engines[engine]`. -/
structure EngineOutcome where
  results : List SearchResult
  metrics : Metrics
deriving Repr

/-- One completed parsing appended to the entity's history. -/
structure Parsing where
  engines : List (String × EngineOutcome)
deriving Repr

/-- Persisted entity: id and its history of completed parsings. -/
structure Entity where
  id : String
  parsings : List Parsing
deriving Repr

/-- Persisted project: id and its entities. -/
structure Project where
  id : String
  entities : List Entity
deriving Repr

/-- Update the first element satisfying the predicate (the JS code mutates
the object returned by `Array.prototype.find`). -/
def updateFirst (p : α → Bool) (f : α → α) : List α → List α
  | [] => []
  | x :: xs => if p x then f x :: xs else x :: updateFirst p f xs

/-- The save stage: reload the store, find the fresh entity, append the
parsing and write back; when project or entity is absent nothing is written. -/
def saveParsing (store : List Project) (pid eid : String) (pr : Parsing) :
    List Project :=
  updateFirst (fun proj => proj.id == pid)
    (fun proj =>
      let newEntities :=
        updateFirst (fun e => e.id == eid)
          (fun e => { e with parsings := e.parsings ++ [pr] }) proj.entities
      { proj with entities := newEntities })
    store

/-- The per-engine loop of the background job: retrieval then metrics, in
configured order; a raised error aborts the remaining engines.  The
retrieval-and-classification stage is the explicit `retrieveE` parameter
(`realSearchWithProgress` is network I/O); `Except.error` models a thrown
exception reaching the handler's `catch`. -/
def runEngines : List String → (String → Except String (List SearchResult)) →
    Except String (List (String × EngineOutcome))
  | [], _ => .ok []
  | e :: rest, retrieveE =>
    match retrieveE e with
    | .error msg => .error msg
    | .ok results =>
      match runEngines rest retrieveE with
      | .error msg => .error msg
      | .ok tail => .ok ((e, ⟨results, calculateMetrics results⟩) :: tail)

/-- Final state of a background job as the claims observe it. -/
structure JobFinal where
  status : TaskStatus
  error : Option String
  result : Option Parsing
deriving Repr

/-- The body of the background IIFE in the `parse-background` handler: run
every engine, then (only then) reload-append-save; any error caught on the
way yields `status = error` and the store is left untouched, because
`saveProjects` is called only in the final stage. -/
def runJob (engines : List String)
    (retrieveE : String → Except String (List SearchResult))
    (store : List Project) (pid eid : String) : JobFinal × List Project :=
  match runEngines engines retrieveE with
  | .error msg => (⟨.error, some msg, none⟩, store)
  | .ok engineResults =>
    let pr : Parsing := ⟨engineResults⟩
    (⟨.completed, none, some pr⟩, saveParsing store pid eid pr)

/-- Net positive contribution of a token list: `positiveScore − negativeScore`
(the quantity the negation property of the specification constrains). -/
def netPositiveContribution (ts : List (List Char)) : ℚ :=
  positiveScore ts - negativeScore ts

/-- Per-token net contribution. -/
def diffStep (ts : List (List Char)) (i : ℕ) : ℚ :=
  (scoreStep ts i).1 - (scoreStep ts i).2

/-- Uniform classified top-10 list carrying the CTR table, used to witness
the aggregation claims on concrete input. -/
def uniformTop10 (s : Sentiment) : List SearchResult :=
  (List.range 10).map (fun i => ⟨i + 1, s, ctrCoefficient (i + 1)⟩)

/-- A 15-item classified list: top-10 all neutral, tail all neutral. -/
def sampleList15 : List SearchResult :=
  (List.range 15).map (fun i => ⟨i + 1, .neutral, ctrCoefficient (i + 1)⟩)

/-- The same list with the sentiment of position 11 flipped to positive. -/
def sampleList15b : List SearchResult :=
  (List.range 15).map
    (fun i => ⟨i + 1, if i = 10 then .positive else .neutral, ctrCoefficient (i + 1)⟩)

/-- A registry holding one running task, used to witness the exclusivity
claim. -/
def sampleRegistry : Registry :=
  [("task-1", ⟨"proj-1", "entity-1", .running, 40⟩)]

/-- A store with one project holding one entity with an empty history. -/
def sampleStore : List Project :=
  [⟨"proj-1", [⟨"entity-1", []⟩]⟩]

/-- C10: on the empty result list the aggregator is total and returns
rating "50.0", all percentages "0.0" (guarded by the `totalWeight > 0`
check), all counts 0, and riskLevel "low" (`0/0` makes both threshold
comparisons false, as NaN does in JS). -/
theorem calculateMetrics_empty :
    calculateMetrics [] =
      { totalResults := 0, positiveCount := 0, negativeCount := 0, neutralCount := 0,
        positivePercent := "0.0", negativePercent := "0.0", neutralPercent := "0.0",
        rating := "50.0", balance := "50.0", score := "0.0", riskLevel := "low" } := by
  with_unfolding_all decide

/-- C8: with the adapter unconfigured, `classify` returns exactly the lexical
classifier's sentiment with confidence 0.5 and the local-fallback
explanation; when the call errors, it returns the lexical sentiment with
confidence 0.3 and an explanation embedding the error message. -/
theorem adapter_fallback (title snippet url : String) :
    analyzeSentimentWithClaude .unconfigured title snippet url =
      { sentiment := analyzeSentiment title snippet
        explanation := "Локальный анализ (Claude API не настроен)"
        confidence := 1 / 2 }
    ∧ ∀ msg : String, analyzeSentimentWithClaude (.failure msg) title snippet url =
      { sentiment := analyzeSentiment title snippet
        explanation := "Ошибка Claude API: " ++ msg
        confidence := 3 / 10 } :=
  ⟨rfl, fun _ => rfl⟩

/-- C4: with `engineCount` engines, 0-based engine index, `subStep ∈ {0,1,2}`
and `subProgress ∈ [0,1]`, the progress written by `updateProgress` equals
`round(100 × (engineIndex/engineCount + (subStep + subProgress)/(2 × engineCount)))`. -/
theorem progress_formula (engineCount engineIndex subStep : ℕ) (subProgress : ℚ)
    (hec : 0 < engineCount) (_hss : subStep ≤ 2)
    (_h0 : 0 ≤ subProgress) (_h1 : subProgress ≤ 1) :
    updateProgress engineCount engineIndex subStep subProgress =
      specProgressFormula engineCount engineIndex subStep subProgress := by
  simp only [updateProgress, specProgressFormula]
  congr 1
  have hc : (engineCount : ℚ) ≠ 0 := Nat.cast_ne_zero.mpr hec.ne'
  field_simp
  ring

/-- Witness for C4 at `engineCount = 2`, `engineIndex = 1`, `subStep = 1`,
`subProgress = 1/2`. -/
theorem progress_formula_witness :
    updateProgress 2 1 1 (1 / 2) = specProgressFormula 2 1 1 (1 / 2) :=
  progress_formula 2 1 1 (1 / 2) (by decide) (by decide)
    (by with_unfolding_all decide) (by with_unfolding_all decide)

/-- C1: a start request for an entity that already has a running task in the
registry answers with that task's id (the first running one in registry
order) and leaves the registry unchanged — no new task is created and the
existing task is untouched. -/
theorem start_returns_running_task (reg : Registry) (eid newId : String) (newTask : Task)
    (h : ∃ p ∈ reg, p.2.entityId = eid ∧ p.2.status = .running) :
    ∃ p, p ∈ reg ∧ p.2.entityId = eid ∧ p.2.status = .running ∧
      startParseBackground reg eid newId newTask = ((p.1, true), reg) := by
  have hsome : (reg.find?
      (fun p => p.2.entityId == eid && p.2.status == TaskStatus.running)).isSome := by
    rw [List.find?_isSome]
    obtain ⟨p, hp, h1, h2⟩ := h
    exact ⟨p, hp, by simp [h1, h2]⟩
  obtain ⟨q, hq⟩ := Option.isSome_iff_exists.mp hsome
  have hqmem := List.mem_of_find?_eq_some hq
  have hqpred := List.find?_some hq
  simp only [Bool.and_eq_true, beq_iff_eq] at hqpred
  refine ⟨q, hqmem, hqpred.1, hqpred.2, ?_⟩
  unfold startParseBackground
  rw [hq]

/-- Witness for C1: a second start request against a registry holding a
running task for the same entity. -/
theorem start_returns_running_task_witness :
    ∃ p, p ∈ sampleRegistry ∧ p.2.entityId = "entity-1" ∧ p.2.status = .running ∧
      startParseBackground sampleRegistry "entity-1" "task-2"
        ⟨"proj-1", "entity-1", .running, 0⟩ = ((p.1, true), sampleRegistry) :=
  start_returns_running_task sampleRegistry "entity-1" "task-2"
    ⟨"proj-1", "entity-1", .running, 0⟩
    ⟨("task-1", ⟨"proj-1", "entity-1", .running, 40⟩), by simp [sampleRegistry], rfl, rfl⟩

/-- A job whose engine list contains an engine whose stage raises an error
never produces an `ok` engine-result list. -/
theorem runEngines_error_of_failing_engine
    (retrieveE : String → Except String (List SearchResult)) :
    ∀ engines : List String, (∃ e ∈ engines, ∃ msg, retrieveE e = .error msg) →
      ∃ m, runEngines engines retrieveE = .error m := by
  intro engines
  induction engines with
  | nil => rintro ⟨e, he, _⟩; exact absurd he (List.not_mem_nil e)
  | cons a rest ih =>
    rintro ⟨e, he, msg, herr⟩
    cases hcall : retrieveE a with
    | error m => exact ⟨m, by simp [runEngines, hcall]⟩
    | ok res =>
      have hrest : e ∈ rest := by
        rcases List.mem_cons.mp he with rfl | h
        · rw [herr] at hcall; exact absurd hcall (by simp)
        · exact h
      obtain ⟨m, hm⟩ := ih ⟨e, hrest, msg, herr⟩
      exact ⟨m, by simp [runEngines, hcall, hm]⟩

/-- C9: if the job fails at any engine stage — before the final save stage —
nothing is persisted: the store after the job equals the store before it,
the job ends in status `error`, and no result object is attached. -/
theorem job_failure_persists_nothing (engines : List String)
    (retrieveE : String → Except String (List SearchResult))
    (store : List Project) (pid eid : String)
    (h : ∃ e ∈ engines, ∃ msg, retrieveE e = .error msg) :
    (runJob engines retrieveE store pid eid).2 = store ∧
    (runJob engines retrieveE store pid eid).1.status = .error ∧
    (runJob engines retrieveE store pid eid).1.result = none := by
  obtain ⟨m, hm⟩ := runEngines_error_of_failing_engine retrieveE engines h
  unfold runJob
  rw [hm]
  exact ⟨rfl, rfl, rfl⟩

/-- Witness for C9: a one-engine job whose retrieval stage throws leaves the
sample store untouched. -/
theorem job_failure_persists_nothing_witness :
    (runJob ["yandex"] (fun _ => .error "store unavailable") sampleStore "proj-1" "entity-1").2 =
      sampleStore ∧
    (runJob ["yandex"] (fun _ => .error "store unavailable") sampleStore "proj-1" "entity-1").1.status =
      .error ∧
    (runJob ["yandex"] (fun _ => .error "store unavailable") sampleStore "proj-1" "entity-1").1.result =
      none :=
  job_failure_persists_nothing ["yandex"] (fun _ => .error "store unavailable")
    sampleStore "proj-1" "entity-1" ⟨"yandex", by simp, "store unavailable", rfl⟩

/-- C2: on any 10-item classified list whose positions 1..10 carry the fixed
CTR weight table (total weight 100), a uniform sentiment yields rating
"100.0" (all positive), "0.0" (all negative) or "87.5" (all neutral), with
rating = (score + 100)/2 formatted to one decimal. -/
theorem top10_uniform_rating (rs : List SearchResult) (s : Sentiment)
    (hlen : rs.length = 10)
    (hctr : ∀ i (h : i < rs.length), rs[i].ctr = ctrCoefficient (i + 1))
    (hsent : ∀ r ∈ rs, r.sentiment = s) :
    (calculateMetrics rs).rating =
      match s with
      | .positive => "100.0"
      | .negative => "0.0"
      | .neutral => "87.5" := by
  rcases rs with _ | ⟨r0, rs⟩; · simp at hlen
  rcases rs with _ | ⟨r1, rs⟩; · simp at hlen
  rcases rs with _ | ⟨r2, rs⟩; · simp at hlen
  rcases rs with _ | ⟨r3, rs⟩; · simp at hlen
  rcases rs with _ | ⟨r4, rs⟩; · simp at hlen
  rcases rs with _ | ⟨r5, rs⟩; · simp at hlen
  rcases rs with _ | ⟨r6, rs⟩; · simp at hlen
  rcases rs with _ | ⟨r7, rs⟩; · simp at hlen
  rcases rs with _ | ⟨r8, rs⟩; · simp at hlen
  rcases rs with _ | ⟨r9, rs⟩; · simp at hlen
  rcases rs with _ | ⟨r10, rs⟩
  swap; · simp at hlen
  have e0 : r0.ctr = 30 := (hctr 0 (by norm_num)).trans (by with_unfolding_all decide)
  have e1 : r1.ctr = 20 := (hctr 1 (by norm_num)).trans (by with_unfolding_all decide)
  have e2 : r2.ctr = 14 := (hctr 2 (by norm_num)).trans (by with_unfolding_all decide)
  have e3 : r3.ctr = 10 := (hctr 3 (by norm_num)).trans (by with_unfolding_all decide)
  have e4 : r4.ctr = 7 := (hctr 4 (by norm_num)).trans (by with_unfolding_all decide)
  have e5 : r5.ctr = 6 := (hctr 5 (by norm_num)).trans (by with_unfolding_all decide)
  have e6 : r6.ctr = 5 := (hctr 6 (by norm_num)).trans (by with_unfolding_all decide)
  have e7 : r7.ctr = 4 := (hctr 7 (by norm_num)).trans (by with_unfolding_all decide)
  have e8 : r8.ctr = 5 / 2 := (hctr 8 (by norm_num)).trans (by with_unfolding_all decide)
  have e9 : r9.ctr = 3 / 2 := (hctr 9 (by norm_num)).trans (by with_unfolding_all decide)
  have s0 : r0.sentiment = s := hsent r0 (by simp)
  have s1 : r1.sentiment = s := hsent r1 (by simp)
  have s2 : r2.sentiment = s := hsent r2 (by simp)
  have s3 : r3.sentiment = s := hsent r3 (by simp)
  have s4 : r4.sentiment = s := hsent r4 (by simp)
  have s5 : r5.sentiment = s := hsent r5 (by simp)
  have s6 : r6.sentiment = s := hsent r6 (by simp)
  have s7 : r7.sentiment = s := hsent r7 (by simp)
  have s8 : r8.sentiment = s := hsent r8 (by simp)
  have s9 : r9.sentiment = s := hsent r9 (by simp)
  cases s <;>
    · simp only [calculateMetrics, mStep, List.take, List.foldl,
        e0, e1, e2, e3, e4, e5, e6, e7, e8, e9,
        s0, s1, s2, s3, s4, s5, s6, s7, s8, s9]
      with_unfolding_all decide

/-- Witness for C2: the uniform all-positive top-10 carrying the CTR table
rates "100.0". -/
theorem top10_uniform_rating_witness :
    (calculateMetrics (uniformTop10 .positive)).rating = "100.0" :=
  top10_uniform_rating (uniformTop10 .positive) .positive
    (by with_unfolding_all decide) (by with_unfolding_all decide)
    (by with_unfolding_all decide)

/-- C3: for 15-item lists agreeing on positions 1..10 (in particular after
changing sentiments at positions 11–15), rating, riskLevel and the three
percentage fields are unchanged; the sentiment counts are computed over the
full list and can genuinely change. -/
theorem metrics_top10_frame (rs1 rs2 : List SearchResult)
    (_h1 : rs1.length = 15) (_h2 : rs2.length = 15)
    (h10 : rs1.take 10 = rs2.take 10) :
    ((calculateMetrics rs1).rating = (calculateMetrics rs2).rating ∧
     (calculateMetrics rs1).riskLevel = (calculateMetrics rs2).riskLevel ∧
     (calculateMetrics rs1).positivePercent = (calculateMetrics rs2).positivePercent ∧
     (calculateMetrics rs1).negativePercent = (calculateMetrics rs2).negativePercent ∧
     (calculateMetrics rs1).neutralPercent = (calculateMetrics rs2).neutralPercent) ∧
    (∀ rs : List SearchResult,
      (calculateMetrics rs).positiveCount =
        (rs.filter (fun r => r.sentiment == Sentiment.positive)).length ∧
      (calculateMetrics rs).negativeCount =
        (rs.filter (fun r => r.sentiment == Sentiment.negative)).length ∧
      (calculateMetrics rs).neutralCount =
        (rs.filter (fun r => r.sentiment == Sentiment.neutral)).length) ∧
    (∃ l1 l2 : List SearchResult, l1.length = 15 ∧ l2.length = 15 ∧
      l1.take 10 = l2.take 10 ∧
      (calculateMetrics l1).rating = (calculateMetrics l2).rating ∧
      (calculateMetrics l1).neutralCount ≠ (calculateMetrics l2).neutralCount) := by
  refine ⟨?_, fun rs => ⟨rfl, rfl, rfl⟩,
    sampleList15, sampleList15b, by with_unfolding_all decide, by with_unfolding_all decide,
    by with_unfolding_all decide, by with_unfolding_all decide, by with_unfolding_all decide⟩
  simp [calculateMetrics, h10]

/-- Witness for C3: two concrete 15-item lists differing only at position 11
share all five top-10-derived fields. -/
theorem metrics_top10_frame_witness :
    (calculateMetrics sampleList15).rating = (calculateMetrics sampleList15b).rating ∧
    (calculateMetrics sampleList15).riskLevel = (calculateMetrics sampleList15b).riskLevel ∧
    (calculateMetrics sampleList15).positivePercent = (calculateMetrics sampleList15b).positivePercent ∧
    (calculateMetrics sampleList15).negativePercent = (calculateMetrics sampleList15b).negativePercent ∧
    (calculateMetrics sampleList15).neutralPercent = (calculateMetrics sampleList15b).neutralPercent :=
  (metrics_top10_frame sampleList15 sampleList15b (by with_unfolding_all decide)
    (by with_unfolding_all decide) (by with_unfolding_all decide)).1

/-- Token read at a valid index belongs to the token list. -/
theorem getD_mem {ts : List (List Char)} {i : ℕ} (h : i < ts.length) :
    ts.getD i [] ∈ ts := by
  rw [List.getD_eq_getElem _ _ h]
  exact List.getElem_mem h

/-- With no dictionary match anywhere, the positive score of the main loop
is zero. -/
theorem positiveScore_eq_zero (ts : List (List Char))
    (h : ∀ w ∈ ts, findMatch positiveWords w = none ∧ findMatch negativeWords w = none) :
    positiveScore ts = 0 := by
  unfold positiveScore
  apply Finset.sum_eq_zero
  intro i hi
  rw [Finset.mem_range] at hi
  have hw := h _ (getD_mem hi)
  simp only [List.getD_eq_getElem?_getD] at hw
  simp [scoreStep, contrib, posPart, negPart, List.getD_eq_getElem?_getD, hw.1, hw.2]

/-- With no dictionary match anywhere, the negative score of the main loop
is zero. -/
theorem negativeScore_eq_zero (ts : List (List Char))
    (h : ∀ w ∈ ts, findMatch positiveWords w = none ∧ findMatch negativeWords w = none) :
    negativeScore ts = 0 := by
  unfold negativeScore
  apply Finset.sum_eq_zero
  intro i hi
  rw [Finset.mem_range] at hi
  have hw := h _ (getD_mem hi)
  simp only [List.getD_eq_getElem?_getD] at hw
  simp [scoreStep, contrib, posPart, negPart, List.getD_eq_getElem?_getD, hw.1, hw.2]

/-- C6: with no keyword-stem match and zero domain bias the classifier
returns neutral; in general, with total = positiveScore + negativeScore
(after bias), the result is neutral when total = 0 and otherwise positive
iff the normalized difference exceeds 3/10, negative iff it is below −3/10,
and neutral otherwise. -/
theorem lexical_classifier_characterization (title snippet domain : String) :
    ((∀ w ∈ tokenize title snippet,
        findMatch positiveWords w = none ∧ findMatch negativeWords w = none) →
      domainBiasOf domain = 0 → analyzeSentiment title snippet domain = .neutral)
    ∧ (adjustedPositive title snippet domain + adjustedNegative title snippet domain = 0 →
        analyzeSentiment title snippet domain = .neutral)
    ∧ (adjustedPositive title snippet domain + adjustedNegative title snippet domain ≠ 0 →
        ((analyzeSentiment title snippet domain = .positive ↔
            (adjustedPositive title snippet domain - adjustedNegative title snippet domain) /
              (adjustedPositive title snippet domain + adjustedNegative title snippet domain) >
              3 / 10)
         ∧ (analyzeSentiment title snippet domain = .negative ↔
            (adjustedPositive title snippet domain - adjustedNegative title snippet domain) /
              (adjustedPositive title snippet domain + adjustedNegative title snippet domain) <
              -(3 / 10))
         ∧ (analyzeSentiment title snippet domain = .neutral ↔
            (¬((adjustedPositive title snippet domain - adjustedNegative title snippet domain) /
                (adjustedPositive title snippet domain + adjustedNegative title snippet domain) >
                3 / 10) ∧
             ¬((adjustedPositive title snippet domain - adjustedNegative title snippet domain) /
                (adjustedPositive title snippet domain + adjustedNegative title snippet domain) <
                -(3 / 10)))))) := by
  have hchar : analyzeSentiment title snippet domain =
      (if adjustedPositive title snippet domain + adjustedNegative title snippet domain = 0 then
        Sentiment.neutral
      else if (adjustedPositive title snippet domain - adjustedNegative title snippet domain) /
          (adjustedPositive title snippet domain + adjustedNegative title snippet domain) >
          3 / 10 then Sentiment.positive
      else if (adjustedPositive title snippet domain - adjustedNegative title snippet domain) /
          (adjustedPositive title snippet domain + adjustedNegative title snippet domain) <
          -(3 / 10) then Sentiment.negative
      else Sentiment.neutral) := rfl
  have hb : adjustedPositive title snippet domain + adjustedNegative title snippet domain = 0 →
      analyzeSentiment title snippet domain = .neutral := by
    intro h
    rw [hchar, if_pos h]
  refine ⟨?_, hb, ?_⟩
  · intro hm hbias
    apply hb
    have hp : adjustedPositive title snippet domain = 0 := by
      simp [adjustedPositive, hbias, positiveScore_eq_zero _ hm]
    have hn : adjustedNegative title snippet domain = 0 := by
      simp [adjustedNegative, hbias, negativeScore_eq_zero _ hm]
    rw [hp, hn]; norm_num
  · intro h
    rw [hchar, if_neg h]
    split_ifs with hgt hlt
    · have hnl : ¬((adjustedPositive title snippet domain - adjustedNegative title snippet domain) /
          (adjustedPositive title snippet domain + adjustedNegative title snippet domain) <
          -(3 / 10)) := by linarith
      simp [hgt, hnl]
    · simp [hgt, hlt]
    · simp [hgt, hlt]

/-- Witness for C6: a token matching neither dictionary and an unknown
domain classify as neutral. -/
theorem lexical_classifier_characterization_witness :
    analyzeSentiment "тест" "" "" = .neutral :=
  (lexical_classifier_characterization "тест" "" "").1
    (by with_unfolding_all decide) (by with_unfolding_all decide)

/-- C7 (amended): on empty/malformed input the classifier returns neutral,
and the generated explanation is the fixed, non-empty neutral text — not the
empty string the specification promises. -/
theorem empty_input_explanation (title snippet domain : String)
    (ht : tokenize title snippet = []) (he : explTokenize title snippet = [])
    (hbias : domainBiasOf domain = 0) :
    analyzeSentiment title snippet domain = .neutral ∧
    generateSentimentExplanation title snippet domain .neutral =
      "Нейтральная информационная публикация" := by
  constructor
  · simp [analyzeSentiment, adjustedPositive, adjustedNegative, ht, hbias,
      positiveScore, negativeScore]
  · simp [generateSentimentExplanation, he, foundWords, sortByWeight]

/-- Witness for C7 (amended) at the empty input. -/
theorem empty_input_explanation_witness :
    analyzeSentiment "" "" "" = .neutral ∧
    generateSentimentExplanation "" "" "" .neutral =
      "Нейтральная информационная публикация" :=
  empty_input_explanation "" "" "" (by with_unfolding_all decide)
    (by with_unfolding_all decide) (by with_unfolding_all decide)

/-- Counterexample to C7 as stated: on the empty input classification is
neutral but the generated explanation is NOT the empty string. -/
theorem empty_input_explanation_not_empty :
    analyzeSentiment "" "" "" = .neutral ∧
    generateSentimentExplanation "" "" "" .neutral ≠ "" := by
  with_unfolding_all decide

/-- Negation words themselves match no entry of either dictionary. -/
theorem negation_no_dict_match :
    ∀ n ∈ negationWords, findMatch positiveWords n = none ∧ findMatch negativeWords n = none := by
  with_unfolding_all decide

/-- Every weight of the positive dictionary is nonnegative. -/
theorem positive_weights_nonneg : ∀ p ∈ positiveWords, 0 ≤ p.2 := by
  with_unfolding_all decide

/-- A successful positive-dictionary match carries a nonnegative weight. -/
theorem findMatch_pos_nonneg {w : List Char} {wt : ℚ}
    (h : findMatch positiveWords w = some wt) : 0 ≤ wt := by
  unfold findMatch at h
  rcases Option.map_eq_some'.mp h with ⟨p, hp, hwt⟩
  exact hwt ▸ positive_weights_nonneg p (List.mem_of_find?_eq_some hp)

/-- For indices up to 3 the negation window is the whole prefix. -/
theorem window_small {ts : List (List Char)} {i : ℕ} (h : i ≤ 3) :
    window ts i = ts.take i := by
  unfold window
  have h3 : i - 3 = 0 := by omega
  rw [h3, List.drop_zero]

/-- Prepending a token extends the window of the first three positions. -/
theorem window_cons_small (n : List Char) (ws : List (List Char)) {i : ℕ} (h : i ≤ 2) :
    window (n :: ws) (i + 1) = n :: ws.take i := by
  unfold window
  rw [List.take_succ_cons]
  have h3 : i + 1 - 3 = 0 := by omega
  rw [h3, List.drop_zero]

/-- Beyond the first three positions the prepended token leaves the window
unchanged. -/
theorem window_cons_big (n : List Char) (ws : List (List Char)) {i : ℕ} (h : 3 ≤ i) :
    window (n :: ws) (i + 1) = window ws i := by
  unfold window
  rw [List.take_succ_cons]
  have h3 : i + 1 - 3 = i - 3 + 1 := by omega
  rw [h3, List.drop_succ_cons]

/-- In a phrase containing no negation word, no position is negated. -/
theorem negatedAt_clean (ws : List (List Char)) (h : ∀ w ∈ ws, w ∉ negationWords) (i : ℕ) :
    negatedAt ws i = false := by
  unfold negatedAt
  rw [List.any_eq_false]
  intro w hw
  have hmem : w ∈ ws := List.take_subset _ _ (List.drop_subset _ _ hw)
  simpa using h w hmem

/-- After prepending a negation word, the first three positions are negated. -/
theorem negatedAt_cons_true (n : List Char) (ws : List (List Char)) {i : ℕ}
    (hn : n ∈ negationWords) (h : i ≤ 2) : negatedAt (n :: ws) (i + 1) = true := by
  unfold negatedAt
  rw [window_cons_small n ws h]
  simp [List.any_cons]
  exact Or.inl hn

/-- Per-token comparison: prepending a negation word to a phrase free of
negation words and of negative-dictionary matches never increases the net
contribution of any token. -/
theorem diffStep_cons_le (n : List Char) (ws : List (List Char)) (i : ℕ)
    (hn : n ∈ negationWords) (hclean : ∀ w ∈ ws, w ∉ negationWords)
    (hneg : ∀ w ∈ ws, findMatch negativeWords w = none) (hi : i < ws.length) :
    diffStep (n :: ws) (i + 1) ≤ diffStep ws i := by
  rcases le_or_lt i 2 with h2 | h3
  · have hwin : negatedAt (n :: ws) (i + 1) = true := negatedAt_cons_true n ws hn h2
    have hwold : negatedAt ws i = false := negatedAt_clean ws hclean i
    unfold diffStep scoreStep
    rw [List.getD_cons_succ, hwin, hwold]
    have hnm : findMatch negativeWords (ws.getD i []) = none := hneg _ (getD_mem hi)
    unfold contrib posPart negPart
    rw [hnm]
    cases hpm : findMatch positiveWords (ws.getD i []) with
    | none => simp
    | some wt =>
      have hw0 : 0 ≤ wt := findMatch_pos_nonneg hpm
      norm_num
      linarith
  · have h3' : 3 ≤ i := h3
    unfold diffStep scoreStep negatedAt
    rw [window_cons_big n ws h3', List.getD_cons_succ]

/-- The net positive contribution is the sum of per-token contributions. -/
theorem netPos_eq_sum (ts : List (List Char)) :
    netPositiveContribution ts = ∑ i ∈ Finset.range ts.length, diffStep ts i := by
  unfold netPositiveContribution positiveScore negativeScore diffStep
  rw [← Finset.sum_sub_distrib]

/-- C5: a positive-dictionary match preceded (within 3 tokens) by a negation
word adds half its weight to the negative score instead of its full weight
to the positive score; consequently a negated positive phrase never scores a
higher net positive contribution than the same phrase un-negated. -/
theorem negation_halves_and_flips :
    (∀ (w : List Char) (wt : ℚ), findMatch positiveWords w = some wt →
      posPart true w = (0, wt * (1 / 2)) ∧ posPart false w = (wt, 0))
    ∧ (∀ n ∈ negationWords, ∀ ws : List (List Char),
        (∀ w ∈ ws, w ∉ negationWords) →
        (∀ w ∈ ws, findMatch negativeWords w = none) →
        netPositiveContribution (n :: ws) ≤ netPositiveContribution ws) := by
  constructor
  · intro w wt h
    unfold posPart
    rw [h]
    exact ⟨rfl, rfl⟩
  · intro n hn ws hclean hneg
    rw [netPos_eq_sum, netPos_eq_sum]
    have hlen : (n :: ws).length = ws.length + 1 := List.length_cons n ws
    rw [hlen, Finset.sum_range_succ']
    have hzero : diffStep (n :: ws) 0 = 0 := by
      unfold diffStep scoreStep
      have : negatedAt (n :: ws) 0 = false := rfl
      rw [this]
      unfold contrib posPart negPart
      rw [List.getD_cons_zero, (negation_no_dict_match n hn).1, (negation_no_dict_match n hn).2]
      norm_num
    rw [hzero, add_zero]
    exact Finset.sum_le_sum (fun i hi =>
      diffStep_cons_le n ws i hn hclean hneg (Finset.mem_range.mp hi))

/-- Witness for C5: the word "хороший" (weight 1) halves into the negative
score under negation, and "не хороший" scores no more positively than
"хороший". -/
theorem negation_halves_and_flips_witness :
    posPart true (str "хороший") = (0, 1 * (1 / 2)) ∧
    netPositiveContribution [str "не", str "хороший"] ≤
      netPositiveContribution [str "хороший"] :=
  ⟨(negation_halves_and_flips.1 (str "хороший") 1 (by with_unfolding_all decide)).1,
   negation_halves_and_flips.2 (str "не") (by with_unfolding_all decide) [str "хороший"]
     (by with_unfolding_all decide) (by with_unfolding_all decide)⟩

end SermMonitor
